import Mathlib

/-!
Shallow embedding of `metrics/eval_metrics_tracker.py` (class `EvalMetricsTracker`)
from the HierarchicalProbabilistic3DHuman repository.

Modelling conventions:
* numpy float64 values are embedded as `ℚ` (exact arithmetic);
  `total_samples` (a Python int) is `ℕ`.
* numpy 1-d arrays are `List ℚ`; a batched point array of shape
  `(bsize, N, dim)` is a `List (List Pt)` where the point type `Pt` is a
  parameter; the pointwise Euclidean norm `np.linalg.norm(x - y, axis=-1)`
  applied to one pair of points is the external-collaborator parameter
  `dist` (numpy is a third-party library, not part of the repository).
* Python dictionaries keyed by strings are total functions `String → _`
  (every key that the tracker ever reads is written first by the
  `initialise_*` methods in all modelled scenarios, so the default value
  of the function is never observable).
* Python exceptions are an explicit `Except Err` result; an `assert`
  statement becomes a guard producing `Err.assertionError`, reading the
  missing attribute `per_frame_metrics` becomes `Err.attributeError`,
  reading a function local that was never assigned becomes
  `Err.unboundLocalError`, and numpy shape/truthiness failures become
  `Err.valueError`.
* a value held in a `metric_sums` slot is an `MVal`: either a numpy
  scalar or a numpy 1-d array, with numpy broadcasting on `+` and `/`.
  This matters because the `measurements_mae` update branch adds a whole
  per-sample array (not its sum) into its slots.
-/

/-- Errors that the embedded tracker operations can raise (Python exceptions). -/
inductive Err where
  | assertionError : String → Err
  | attributeError : String → Err
  | typeError : String → Err
  | valueError : String → Err
  | unboundLocalError : String → Err
deriving DecidableEq

/-- Value held in a `metric_sums` slot: a numpy scalar or a numpy 1-d array. -/
inductive MVal where
  | S : ℚ → MVal
  | A : List ℚ → MVal
deriving DecidableEq

/-- Addition of a numpy scalar into an `MVal` (scalar broadcasting). -/
def mvAddScalar : MVal → ℚ → MVal
  | .S a, q => .S (a + q)
  | .A as, q => .A (as.map (· + q))

/-- Addition of a numpy 1-d array into an `MVal`, with numpy broadcasting
rules: equal lengths add elementwise, a length-one operand broadcasts, and
any other length mismatch raises a `ValueError`. -/
def mvAddArr : MVal → List ℚ → Except Err MVal
  | .S a, qs => .ok (.A (qs.map (a + ·)))
  | .A as, qs =>
    if as.length = qs.length then .ok (.A (List.zipWith (· + ·) as qs))
    else if as.length = 1 then .ok (.A (qs.map (as.headD 0 + ·)))
    else if qs.length = 1 then .ok (.A (as.map (· + qs.headD 0)))
    else .error (.valueError "operands could not be broadcast together")

/-- Division of an `MVal` by a numpy scalar (broadcasting). -/
def mvDiv : MVal → ℚ → MVal
  | .S a, d => .S (a / d)
  | .A as, d => .A (as.map (· / d))

/-- Reading an `MVal` that the tracker only ever stores scalars into
(the confusion-matrix counters and the visible-pair counter). -/
def MVal.toScalar : MVal → ℚ
  | .S a => a
  | .A as => as.headD 0

/-- Absolute value (`np.abs`), written explicitly so that closed scenarios
evaluate by kernel reduction. -/
def absQ (x : ℚ) : ℚ := if x.num < 0 then -x else x

/-- Mean of a list of rationals (`np.mean` along the last axis). -/
def listMean (xs : List ℚ) : ℚ := xs.sum / (xs.length : ℚ)

/-- Number of `true` entries of a boolean list (`np.sum` of a boolean mask). -/
def countTrue (xs : List Bool) : ℕ := xs.count true

/-- Index of the first minimal element of a list (`np.argmin`); the caller
guards against the empty list, on which numpy raises. -/
def argminIdx : List ℚ → ℕ
  | [] => 0
  | [_] => 0
  | x :: y :: rest =>
    let k := argminIdx (y :: rest)
    if x ≤ (y :: rest).getD k 0 then 0 else k + 1

/-- Substring test: `sub in s` on Python strings. -/
def strContains (s sub : String) : Bool :=
  (List.range (s.data.length + 1)).any (fun i => sub.data.isPrefixOf (s.data.drop i))

/-- Update of a string-keyed total function at one key. -/
def setKey {α : Type} (f : String → α) (k : String) (v : α) : String → α :=
  fun x => if x = k then v else f x

/-- External collaborators consumed by the tracker, all applied to one batch
element (one sample) at a time.

Modelled from the spec: `scale_and_translation_transform_batch` and
`procrustes_analysis_batch` (`utils/eval_utils.py`, not under `src/`) operate
on batched point sets of shape `(batch, N, dim)` and return a same-shape
array minimizing squared error to the reference under the respective
transform family, independently per batch element; `get_measurements_from_vertices`
and `remove_symmetric_measurements_torch` (`utils/local_shape_utils.py`, not
under `src/`) derive a batched measurement array from a mesh and reduce
symmetric left/right pairs to a canonical set.  `dist` is the pointwise
Euclidean norm `np.linalg.norm(x - y, axis=-1)` restricted to one pair of
points (numpy collaborator). -/
structure Collab (Pt : Type) where
  dist : Pt → Pt → ℚ
  sc_align : List Pt → List Pt → List Pt
  pa_align : List Pt → List Pt → List Pt
  get_meas : List Pt → List Pt → List ℚ
  remove_symm : List ℚ → List ℚ

/-- Modelled from the spec: `scale_and_translation_transform_batch`
(`utils/eval_utils.py`, missing from `src/`) — the batched scale+translation
alignment, applied independently per batch element. -/
def scale_and_translation_transform_batch {Pt : Type} (e : Collab Pt)
    (points reference : List (List Pt)) : List (List Pt) :=
  List.zipWith e.sc_align points reference

/-- Modelled from the spec: `procrustes_analysis_batch`
(`utils/eval_utils.py`, missing from `src/`) — the batched full rigid
(Procrustes) alignment, applied independently per batch element. -/
def procrustes_analysis_batch {Pt : Type} (e : Collab Pt)
    (points reference : List (List Pt)) : List (List Pt) :=
  List.zipWith e.pa_align points reference

/-- Modelled from the spec: `get_measurements_from_vertices`
(`utils/local_shape_utils.py`, missing from `src/`) — derives the
concatenated joint-length / vertex-length / vertex-circumference measurement
array for each sample of a batch. -/
def get_measurements_from_vertices_batch {Pt : Type} (e : Collab Pt)
    (vertices joints_all : List (List Pt)) : List (List ℚ) :=
  List.zipWith e.get_meas vertices joints_all

/-- Modelled from the spec: `remove_symmetric_measurements_torch`
(`utils/local_shape_utils.py`, missing from `src/`) — collapses named
left/right measurement pairs to a canonical non-symmetric set, per sample. -/
def remove_symmetric_measurements_batch {Pt : Type} (e : Collab Pt)
    (meas : List (List ℚ)) : List (List ℚ) :=
  meas.map e.remove_symm

/-- Per-sample point distances: `np.linalg.norm(pred - target, axis=-1)`
for one sample, pairing corresponding points. -/
def sampleDists {Pt : Type} (dist : Pt → Pt → ℚ) (pred target : List Pt) : List ℚ :=
  List.zipWith dist pred target

/-- Batched point distances, shape `(bsize, N)`. -/
def batchDists {Pt : Type} (dist : Pt → Pt → ℚ) (pred target : List (List Pt)) :
    List (List ℚ) :=
  List.zipWith (sampleDists dist) pred target

/-- Count of mask positions of one sample satisfying a pixelwise predicate
(one cell of the confusion matrix, `np.sum` of `np.logical_*` output). -/
def maskCount (f : Bool → Bool → Bool) (p t : List Bool) : ℕ :=
  countTrue (List.zipWith f p t)

/-- Per-sample confusion-matrix cell counts over a batch of masks. -/
def batchMaskCount (f : Bool → Bool → Bool) (p t : List (List Bool)) : List ℕ :=
  List.zipWith (maskCount f) p t

/-- Selection step of the `joints2Dsamples_l2es` branch when the target has a
`joints2D_vis` key: the target joints and the visibility mask are tiled over
the candidate axis, boolean-mask indexing flattens the visible
`(batch, candidate, joint)` positions in C order, and corresponding
prediction/target points are paired positionally. -/
def j2dsVisPairs {Pt : Type} (pred : List (List (List Pt))) (tgtJ : List (List Pt))
    (vis : List (List Bool)) : List (Pt × Pt) :=
  (List.zipWith (fun predB tv =>
    (predB.map (fun cand => ((cand.zip tv.1).zip tv.2).filterMap
      (fun x => if x.2 then some x.1 else none))).flatten)
    pred (tgtJ.zip vis)).flatten

/-- Selection step of the `joints2Dsamples_l2es` branch without a visibility
mask: every `(batch, candidate, joint)` pair contributes. -/
def j2dsAllPairs {Pt : Type} (pred : List (List (List Pt))) (tgtJ : List (List Pt)) :
    List (Pt × Pt) :=
  (List.zipWith (fun predB tj => (predB.map (fun cand => cand.zip tj)).flatten)
    pred tgtJ).flatten

/-- Number of `true` entries of the visibility mask tiled over the candidate
axis (`target_joints2d_vis_coco.sum()` in the source assert). -/
def j2dsTiledVisCount {Pt : Type} (pred : List (List (List Pt))) (vis : List (List Bool)) : ℕ :=
  (List.zipWith (fun predB vb => predB.length * countTrue vb) pred vis).sum

/-- Squared elementwise difference summed over all elements and samples
(`np.sum((pred - target) ** 2)` on per-sample parameter vectors). -/
def sqDiffSum (p t : List (List ℚ)) : ℚ :=
  (List.zipWith (fun a b => (List.zipWith (fun x y => (x - y) ^ 2) a b).sum) p t).sum

/-- Configuration of the tracker: the constructor arguments of
`EvalMetricsTracker` plus the two measurement-name lists that the source
reads from `config.py`.

Modelled from the spec: `config.METAIL_MEASUREMENTS`, `config.ALL_MEAS_NAMES`
and `config.ALL_MEAS_NAMES_NO_SYMM` (`config.py` is not under `src/`) are
fixed enumerated lists of measurement names supplied by configuration. -/
structure Config where
  metrics_to_track : List String
  METAIL_MEASUREMENTS : List String
  ALL_MEAS_NAMES_NO_SYMM : List String
  save_per_frame_metrics : Bool

/-- Prediction bundle: the keys of `pred_dict` that `update_per_batch` reads. -/
structure PredDict (Pt : Type) where
  verts : List (List Pt)
  reposed_verts : List (List Pt)
  reposed_joints : List (List Pt)
  joints3D : List (List Pt)
  joints2D : List (List Pt)
  verts_samples : List (List Pt)
  reposed_verts_samples : List (List Pt)
  joints3D_samples : List (List Pt)
  joints2Dsamples : List (List (List Pt))
  silhouettes : List (List Bool)
  silhouettessamples : List (List (List Bool))
  pose_params_rot_matrices : List (List ℚ)
  shape_params : List (List ℚ)
  measurements : String → List ℚ

/-- Target bundle: the keys of `target_dict` that `update_per_batch` reads.
The optional `joints2D_vis` field models presence of the key
`joints2D_vis in target_dict.keys()`. -/
structure TargetDict (Pt : Type) where
  verts : List (List Pt)
  reposed_verts : List (List Pt)
  reposed_joints : List (List Pt)
  joints3D : List (List Pt)
  joints2D : List (List Pt)
  silhouettes : List (List Bool)
  joints2D_vis : Option (List (List Bool))
  pose_params_rot_matrices : List (List ℚ)
  shape_params : List (List ℚ)
  measurements : String → List ℚ

/-- Empty prediction bundle (concrete scenarios fill in only the fields the
configured metrics read). -/
def emptyPred (Pt : Type) : PredDict Pt where
  verts := []
  reposed_verts := []
  reposed_joints := []
  joints3D := []
  joints2D := []
  verts_samples := []
  reposed_verts_samples := []
  joints3D_samples := []
  joints2Dsamples := []
  silhouettes := []
  silhouettessamples := []
  pose_params_rot_matrices := []
  shape_params := []
  measurements := fun _ => []

/-- Empty target bundle. -/
def emptyTarget (Pt : Type) : TargetDict Pt where
  verts := []
  reposed_verts := []
  reposed_joints := []
  joints3D := []
  joints2D := []
  silhouettes := []
  joints2D_vis := none
  pose_params_rot_matrices := []
  shape_params := []
  measurements := fun _ => []

/-- Mutable state of an `EvalMetricsTracker` instance.  `metric_sums` and
`per_frame_metrics` are `none` until the corresponding `initialise_*` method
has run (in the source, `metric_sums` starts as `None` and
`per_frame_metrics` starts as a missing attribute). -/
structure TrackerState where
  metric_sums : Option (String → MVal)
  total_samples : ℕ
  per_frame_metrics : Option (String → List (List ℚ))

/-- State right after `EvalMetricsTracker.__init__`. -/
def initState : TrackerState where
  metric_sums := none
  total_samples := 0
  per_frame_metrics := none

/-- Slot initialisation for one configured metric
(the loop body of `initialise_metric_sums`). -/
def initSlots (cfg : Config) (acc : String → MVal) (metric_type : String) :
    String → MVal :=
  if metric_type = "silhouette_ious" then
    setKey (setKey (setKey (setKey acc "num_true_positives" (.S 0))
      "num_false_positives" (.S 0)) "num_true_negatives" (.S 0))
      "num_false_negatives" (.S 0)
  else if metric_type = "silhouettesamples_ious" then
    setKey (setKey (setKey (setKey acc "num_samples_true_positives" (.S 0))
      "num_samples_false_positives" (.S 0)) "num_samples_true_negatives" (.S 0))
      "num_samples_false_negatives" (.S 0)
  else if metric_type = "joints2Dsamples_l2es" then
    setKey (setKey acc "num_vis_joints2Dsamples" (.S 0)) metric_type (.S 0)
  else if metric_type = "measurements_mae" then
    cfg.METAIL_MEASUREMENTS.foldl (fun a measure => setKey a measure (.S 0)) acc
  else if metric_type = "smpl_measurements_mae" then
    setKey (cfg.ALL_MEAS_NAMES_NO_SYMM.foldl (fun a measure => setKey a measure (.S 0)) acc)
      "smpl_meas_error_all" (.S 0)
  else
    setKey acc metric_type (.S 0)

/-- `EvalMetricsTracker.initialise_metric_sums`: zero-initialise every slot
owned by a configured metric.  The base function is never read at a key the
tracker uses, since every owned slot is written here. -/
def initialise_metric_sums (cfg : Config) (s : TrackerState) : TrackerState :=
  { s with metric_sums := some (cfg.metrics_to_track.foldl (initSlots cfg) (fun _ => .S 0)) }

/-- `EvalMetricsTracker.initialise_per_frame_metric_lists`: give every
configured metric an empty ordered sequence. -/
def initialise_per_frame_metric_lists (cfg : Config) (s : TrackerState) : TrackerState :=
  { s with per_frame_metrics := some (cfg.metrics_to_track.foldl (fun a m => setKey a m []) (fun _ => [])) }

/-- Adds a scalar into a `metric_sums` slot
(`self.metric_sums[k] += q` with `q` a numpy scalar). -/
def bump (s : TrackerState) (k : String) (q : ℚ) : Except Err TrackerState :=
  match s.metric_sums with
  | none => .error (.typeError "metric_sums is None")
  | some f => .ok { s with metric_sums := some (setKey f k (mvAddScalar (f k) q)) }

/-- Adds a numpy 1-d array into a `metric_sums` slot
(`self.metric_sums[k] += arr`; note the absence of `np.sum`). -/
def bumpArr (s : TrackerState) (k : String) (arr : List ℚ) : Except Err TrackerState :=
  match s.metric_sums with
  | none => .error (.typeError "metric_sums is None")
  | some f => do
    let v ← mvAddArr (f k) arr
    .ok { s with metric_sums := some (setKey f k v) }

/-- Appends one per-batch entry to a `per_frame_metrics` list
(`self.per_frame_metrics[k].append(entry)`); raises `AttributeError` when
`initialise_per_frame_metric_lists` has not run. -/
def appendPF (s : TrackerState) (k : String) (entry : List ℚ) : Except Err TrackerState :=
  match s.per_frame_metrics with
  | none => .error (.attributeError "per_frame_metrics")
  | some f => .ok { s with per_frame_metrics := some (setKey f k (f k ++ [entry])) }

/-- Guard of the `_samples_min` update branches
(`assert num_input_samples == 1`). -/
def assertBatchSize (n : ℕ) : Except Err Unit :=
  if n = 1 then .ok ()
  else .error (.assertionError "Batch size must be 1 for min samples metrics!")

/-- Guard against `np.argmin` on an empty candidate axis. -/
def assertNonemptySamples {Pt : Type} (samples : List (List Pt)) : Except Err Unit :=
  if samples.isEmpty then
    .error (.valueError "attempt to get argmin of an empty sequence")
  else .ok ()

/-- `EvalMetricsTracker.update_per_batch`.  Mirrors the source branch by
branch (same guard strings, same slot keys, same per-frame appends); the two
optional return dictionaries are outputs to the caller, not tracker state,
and are not modelled.  In the `_samples_min` branches the target holds one
sample (enforced by the batch-size assertion), modelled by taking the head
of the target batch where numpy broadcasts or tiles the length-one batch
axis. -/
def update_per_batch {Pt : Type} (cfg : Config) (e : Collab Pt) (s0 : TrackerState)
    (pred_dict : PredDict Pt) (target_dict : TargetDict Pt) (num_input_samples : ℕ)
    (return_transformed_points return_per_frame_metrics : Bool) :
    Except Err TrackerState := do
  let s := { s0 with total_samples := s0.total_samples + num_input_samples }
  let s ← if "pves" ∈ cfg.metrics_to_track then do
      let pve_batch := batchDists e.dist pred_dict.verts target_dict.verts
      let s ← bump s "pves" (pve_batch.map List.sum).sum
      appendPF s "pves" (pve_batch.map listMean)
    else pure s
  let s ← if "pves_sc" ∈ cfg.metrics_to_track then do
      let pred_vertices_sc := scale_and_translation_transform_batch e pred_dict.verts target_dict.verts
      let pve_sc_batch := batchDists e.dist pred_vertices_sc target_dict.verts
      let s ← bump s "pves_sc" (pve_sc_batch.map List.sum).sum
      appendPF s "pves_sc" (pve_sc_batch.map listMean)
    else pure s
  let s ← if "pves_pa" ∈ cfg.metrics_to_track then do
      let pred_vertices_pa := procrustes_analysis_batch e pred_dict.verts target_dict.verts
      let pve_pa_batch := batchDists e.dist pred_vertices_pa target_dict.verts
      let s ← bump s "pves_pa" (pve_pa_batch.map List.sum).sum
      appendPF s "pves_pa" (pve_pa_batch.map listMean)
    else pure s
  let s ← if "pve-ts" ∈ cfg.metrics_to_track then do
      let pvet_batch := batchDists e.dist pred_dict.reposed_verts target_dict.reposed_verts
      let s ← bump s "pve-ts" (pvet_batch.map List.sum).sum
      appendPF s "pve-ts" (pvet_batch.map listMean)
    else pure s
  let s ← if "pve-ts_sc" ∈ cfg.metrics_to_track then do
      let pred_reposed_vertices_sc := scale_and_translation_transform_batch e pred_dict.reposed_verts target_dict.reposed_verts
      let pvet_sc_batch := batchDists e.dist pred_reposed_vertices_sc target_dict.reposed_verts
      let s ← bump s "pve-ts_sc" (pvet_sc_batch.map List.sum).sum
      appendPF s "pve-ts_sc" (pvet_sc_batch.map listMean)
    else pure s
  let s ← if "pve-ts_pa" ∈ cfg.metrics_to_track then do
      let pred_reposed_vertices_pa := procrustes_analysis_batch e pred_dict.reposed_verts target_dict.reposed_verts
      let pvet_pa_batch := batchDists e.dist pred_reposed_vertices_pa target_dict.reposed_verts
      let s ← bump s "pve-ts_pa" (pvet_pa_batch.map List.sum).sum
      appendPF s "pve-ts_pa" (pvet_pa_batch.map listMean)
    else pure s
  let s ← if "mpjpes" ∈ cfg.metrics_to_track then do
      let mpjpe_batch := batchDists e.dist pred_dict.joints3D target_dict.joints3D
      let s ← bump s "mpjpes" (mpjpe_batch.map List.sum).sum
      appendPF s "mpjpes" (mpjpe_batch.map listMean)
    else pure s
  let s ← if "mpjpes_sc" ∈ cfg.metrics_to_track then do
      let pred_joints3D_sc := scale_and_translation_transform_batch e pred_dict.joints3D target_dict.joints3D
      let mpjpe_sc_batch := batchDists e.dist pred_joints3D_sc target_dict.joints3D
      let s ← bump s "mpjpes_sc" (mpjpe_sc_batch.map List.sum).sum
      appendPF s "mpjpes_sc" (mpjpe_sc_batch.map listMean)
    else pure s
  let s ← if "mpjpes_pa" ∈ cfg.metrics_to_track then do
      let pred_joints3D_pa := procrustes_analysis_batch e pred_dict.joints3D target_dict.joints3D
      let mpjpe_pa_batch := batchDists e.dist pred_joints3D_pa target_dict.joints3D
      let s ← bump s "mpjpes_pa" (mpjpe_pa_batch.map List.sum).sum
      appendPF s "mpjpes_pa" (mpjpe_pa_batch.map listMean)
    else pure s
  let s ← if "pves_samples_min" ∈ cfg.metrics_to_track then do
      assertBatchSize num_input_samples
      let pve_per_sample := pred_dict.verts_samples.map
        (fun cand => sampleDists e.dist cand (target_dict.verts.headD []))
      assertNonemptySamples pred_dict.verts_samples
      let min_pve_sample := argminIdx (pve_per_sample.map listMean)
      let pve_samples_min_batch := pve_per_sample.getD min_pve_sample []
      let s ← bump s "pves_samples_min" pve_samples_min_batch.sum
      appendPF s "pves_samples_min" [listMean pve_samples_min_batch]
    else pure s
  let s ← if "pves_sc_samples_min" ∈ cfg.metrics_to_track then do
      assertBatchSize num_input_samples
      let pred_vertices_samples := pred_dict.verts_samples
      let target_vertices := List.replicate pred_vertices_samples.length (target_dict.verts.headD [])
      let pred_vertices_samples_sc := scale_and_translation_transform_batch e pred_vertices_samples target_vertices
      let pve_sc_per_sample := batchDists e.dist pred_vertices_samples_sc target_vertices
      assertNonemptySamples pred_vertices_samples
      let min_pve_sc_sample := argminIdx (pve_sc_per_sample.map listMean)
      let pve_sc_samples_min_batch := pve_sc_per_sample.getD min_pve_sc_sample []
      let s ← bump s "pves_sc_samples_min" pve_sc_samples_min_batch.sum
      appendPF s "pves_sc_samples_min" [listMean pve_sc_samples_min_batch]
    else pure s
  let s ← if "pves_pa_samples_min" ∈ cfg.metrics_to_track then do
      assertBatchSize num_input_samples
      let pred_vertices_samples := pred_dict.verts_samples
      let target_vertices := List.replicate pred_vertices_samples.length (target_dict.verts.headD [])
      let pred_vertices_samples_pa := procrustes_analysis_batch e pred_vertices_samples target_vertices
      let pve_pa_per_sample := batchDists e.dist pred_vertices_samples_pa target_vertices
      assertNonemptySamples pred_vertices_samples
      let min_pve_pa_sample := argminIdx (pve_pa_per_sample.map listMean)
      let pve_pa_samples_min_batch := pve_pa_per_sample.getD min_pve_pa_sample []
      let s ← bump s "pves_pa_samples_min" pve_pa_samples_min_batch.sum
      appendPF s "pves_pa_samples_min" [listMean pve_pa_samples_min_batch]
    else pure s
  let s ← if "pve-ts_samples_min" ∈ cfg.metrics_to_track then do
      assertBatchSize num_input_samples
      let pvet_per_sample := pred_dict.reposed_verts_samples.map
        (fun cand => sampleDists e.dist cand (target_dict.reposed_verts.headD []))
      assertNonemptySamples pred_dict.reposed_verts_samples
      let min_pvet_sample := argminIdx (pvet_per_sample.map listMean)
      let pvet_samples_min_batch := pvet_per_sample.getD min_pvet_sample []
      let s ← bump s "pve-ts_samples_min" pvet_samples_min_batch.sum
      appendPF s "pve-ts_samples_min" [listMean pvet_samples_min_batch]
    else pure s
  let s ← if "pve-ts_sc_samples_min" ∈ cfg.metrics_to_track then do
      assertBatchSize num_input_samples
      let pred_reposed_vertices_samples := pred_dict.reposed_verts_samples
      let target_reposed_vertices := List.replicate pred_reposed_vertices_samples.length (target_dict.reposed_verts.headD [])
      let pred_reposed_vertices_samples_sc := scale_and_translation_transform_batch e pred_reposed_vertices_samples target_reposed_vertices
      let pvet_sc_per_sample := batchDists e.dist pred_reposed_vertices_samples_sc target_reposed_vertices
      assertNonemptySamples pred_reposed_vertices_samples
      let min_pvet_sc_sample := argminIdx (pvet_sc_per_sample.map listMean)
      let pvet_sc_samples_min_batch := pvet_sc_per_sample.getD min_pvet_sc_sample []
      let s ← bump s "pve-ts_sc_samples_min" pvet_sc_samples_min_batch.sum
      appendPF s "pve-ts_sc_samples_min" [listMean pvet_sc_samples_min_batch]
    else pure s
  let s ← if "mpjpes_samples_min" ∈ cfg.metrics_to_track then do
      assertBatchSize num_input_samples
      let mpjpe_per_sample := pred_dict.joints3D_samples.map
        (fun cand => sampleDists e.dist cand (target_dict.joints3D.headD []))
      assertNonemptySamples pred_dict.joints3D_samples
      let min_mpjpe_sample := argminIdx (mpjpe_per_sample.map listMean)
      let mpjpe_samples_min_batch := mpjpe_per_sample.getD min_mpjpe_sample []
      let s ← bump s "mpjpes_samples_min" mpjpe_samples_min_batch.sum
      appendPF s "mpjpes_samples_min" [listMean mpjpe_samples_min_batch]
    else pure s
  let s ← if "mpjpes_sc_samples_min" ∈ cfg.metrics_to_track then do
      assertBatchSize num_input_samples
      let pred_joints3D_samples := pred_dict.joints3D_samples
      let target_joints3D := List.replicate pred_joints3D_samples.length (target_dict.joints3D.headD [])
      let pred_joints3D_sc := scale_and_translation_transform_batch e pred_joints3D_samples target_joints3D
      let mpjpe_sc_per_sample := batchDists e.dist pred_joints3D_sc target_joints3D
      assertNonemptySamples pred_joints3D_samples
      let min_mpjpe_sc_sample := argminIdx (mpjpe_sc_per_sample.map listMean)
      let mpjpe_sc_samples_min_batch := mpjpe_sc_per_sample.getD min_mpjpe_sc_sample []
      let s ← bump s "mpjpes_sc_samples_min" mpjpe_sc_samples_min_batch.sum
      appendPF s "mpjpes_sc_samples_min" [listMean mpjpe_sc_samples_min_batch]
    else pure s
  let s ← if "mpjpes_pa_samples_min" ∈ cfg.metrics_to_track then do
      assertBatchSize num_input_samples
      let pred_joints3D_samples := pred_dict.joints3D_samples
      let target_joints3D := List.replicate pred_joints3D_samples.length (target_dict.joints3D.headD [])
      let pred_joints3D_pa := procrustes_analysis_batch e pred_joints3D_samples target_joints3D
      let mpjpe_pa_per_sample := batchDists e.dist pred_joints3D_pa target_joints3D
      assertNonemptySamples pred_joints3D_samples
      let min_mpjpe_pa_sample := argminIdx (mpjpe_pa_per_sample.map listMean)
      let mpjpe_pa_samples_min_batch := mpjpe_pa_per_sample.getD min_mpjpe_pa_sample []
      let s ← bump s "mpjpes_pa_samples_min" mpjpe_pa_samples_min_batch.sum
      appendPF s "mpjpes_pa_samples_min" [listMean mpjpe_pa_samples_min_batch]
    else pure s
  let s ← if "pose_mses" ∈ cfg.metrics_to_track then
      bump s "pose_mses" (sqDiffSum pred_dict.pose_params_rot_matrices target_dict.pose_params_rot_matrices)
    else pure s
  let s ← if "shape_mses" ∈ cfg.metrics_to_track then
      bump s "shape_mses" (sqDiffSum pred_dict.shape_params target_dict.shape_params)
    else pure s
  let s ← if "joints2D_l2es" ∈ cfg.metrics_to_track then do
      let joints2D_l2e_batch := batchDists e.dist pred_dict.joints2D target_dict.joints2D
      let s ← bump s "joints2D_l2es" (joints2D_l2e_batch.map List.sum).sum
      appendPF s "joints2D_l2es" (joints2D_l2e_batch.map listMean)
    else pure s
  let s ← if "joints2Dsamples_l2es" ∈ cfg.metrics_to_track then do
      let pred_samples := pred_dict.joints2Dsamples
      match target_dict.joints2D_vis with
      | some vis => do
        let dl := (j2dsVisPairs pred_samples target_dict.joints2D vis).map
          (fun pq => e.dist pq.1 pq.2)
        if dl.length = j2dsTiledVisCount pred_samples vis then do
          let s ← bump s "joints2Dsamples_l2es" dl.sum
          bump s "num_vis_joints2Dsamples" (dl.length : ℚ)
        else throw (.assertionError "filtered visible pair count mismatch")
      | none => do
        let dl := (j2dsAllPairs pred_samples target_dict.joints2D).map
          (fun pq => e.dist pq.1 pq.2)
        let s ← bump s "joints2Dsamples_l2es" dl.sum
        bump s "num_vis_joints2Dsamples" (dl.length : ℚ)
    else pure s
  let s ← if "silhouette_ious" ∈ cfg.metrics_to_track then do
      let pred_silhouettes := pred_dict.silhouettes
      let target_silhouettes := target_dict.silhouettes
      let num_tp := batchMaskCount (fun a b => a && b) pred_silhouettes target_silhouettes
      let num_fp := batchMaskCount (fun a b => a && !b) pred_silhouettes target_silhouettes
      let num_tn := batchMaskCount (fun a b => !a && !b) pred_silhouettes target_silhouettes
      let num_fn := batchMaskCount (fun a b => !a && b) pred_silhouettes target_silhouettes
      let s ← bump s "num_true_positives" (num_tp.sum : ℚ)
      let s ← bump s "num_false_positives" (num_fp.sum : ℚ)
      let s ← bump s "num_true_negatives" (num_tn.sum : ℚ)
      let s ← bump s "num_false_negatives" (num_fn.sum : ℚ)
      let iou_per_frame := List.zipWith (fun tp fpn => (tp : ℚ) / ((tp : ℚ) + (fpn : ℚ)))
        num_tp (List.zipWith (· + ·) num_fp num_fn)
      appendPF s "silhouette_ious" iou_per_frame
    else pure s
  let s ← if "silhouettesamples_ious" ∈ cfg.metrics_to_track then do
      let pred_ss := pred_dict.silhouettessamples
      let tgt_tiled := List.zipWith (fun predB t => List.replicate predB.length t) pred_ss target_dict.silhouettes
      let s ← bump s "num_samples_true_positives"
        (((List.zipWith (fun pb tb => (batchMaskCount (fun a b => a && b) pb tb).sum) pred_ss tgt_tiled).sum : ℕ) : ℚ)
      let s ← bump s "num_samples_false_positives"
        (((List.zipWith (fun pb tb => (batchMaskCount (fun a b => a && !b) pb tb).sum) pred_ss tgt_tiled).sum : ℕ) : ℚ)
      let s ← bump s "num_samples_true_negatives"
        (((List.zipWith (fun pb tb => (batchMaskCount (fun a b => !a && !b) pb tb).sum) pred_ss tgt_tiled).sum : ℕ) : ℚ)
      bump s "num_samples_false_negatives"
        (((List.zipWith (fun pb tb => (batchMaskCount (fun a b => !a && b) pb tb).sum) pred_ss tgt_tiled).sum : ℕ) : ℚ)
    else pure s
  let s ← if "measurements_mae" ∈ cfg.metrics_to_track then
      cfg.METAIL_MEASUREMENTS.foldlM (fun s measure =>
        bumpArr s measure ((List.zipWith (fun a b => a - b)
          (pred_dict.measurements measure) (target_dict.measurements measure)).map absQ)) s
    else pure s
  let s ← if "smpl_measurements_mae" ∈ cfg.metrics_to_track then do
      let target_reposed_vertices := target_dict.reposed_verts
      let target_reposed_joints := target_dict.reposed_joints
      let pred_reposed_vertices_sc := scale_and_translation_transform_batch e pred_dict.reposed_verts target_reposed_vertices
      let pred_reposed_joints_sc := scale_and_translation_transform_batch e pred_dict.reposed_joints target_reposed_joints
      let target_measurements := remove_symmetric_measurements_batch e
        (get_measurements_from_vertices_batch e target_reposed_vertices target_reposed_joints)
      let pred_measurements := remove_symmetric_measurements_batch e
        (get_measurements_from_vertices_batch e pred_reposed_vertices_sc pred_reposed_joints_sc)
      let s ← cfg.ALL_MEAS_NAMES_NO_SYMM.enum.foldlM (fun s im =>
        bump s im.2 ((List.zipWith (fun tr pr => absQ (tr.getD im.1 0 - pr.getD im.1 0))
          target_measurements pred_measurements).sum)) s
      bump s "smpl_meas_error_all"
        ((List.zipWith (fun tr pr => (List.zipWith (fun a b => absQ (a - b)) tr pr).sum)
          target_measurements pred_measurements).sum)
    else pure s
  pure s

/-- `EvalMetricsTracker.compute_final_metrics`.  Returns the ordered
association list `final_metrics`.  The Python local `num_per_sample` is
loop-carried (a function local survives loop iterations), so an
unrecognized metric family only raises `UnboundLocalError` when no earlier
iteration of the loop assigned the local; the report loop at the end
evaluates each value in a boolean context (`final_metrics[metric] > 0.3`),
which raises `ValueError` on a numpy array of more than one element; the
`np.save` calls are external I/O and are not modelled beyond their reads. -/
def compute_final_metrics (cfg : Config) (s : TrackerState) :
    Except Err (List (String × MVal)) := do
  let some sums := s.metric_sums | throw (.typeError "metric_sums is None")
  let acc ← cfg.metrics_to_track.foldlM
    (fun (acc : List (String × MVal) × Option ℚ) metric_type => do
      let final_metrics := acc.1
      if metric_type = "silhouette_ious" then
        let iou := (sums "num_true_positives").toScalar /
          ((sums "num_true_positives").toScalar + (sums "num_false_negatives").toScalar +
            (sums "num_false_positives").toScalar)
        pure (final_metrics ++ [("silhouette_ious", MVal.S iou)], acc.2)
      else if metric_type = "silhouettesamples_ious" then
        let iou := (sums "num_samples_true_positives").toScalar /
          ((sums "num_samples_true_positives").toScalar + (sums "num_samples_false_negatives").toScalar +
            (sums "num_samples_false_positives").toScalar)
        pure (final_metrics ++ [("silhouettesamples_ious", MVal.S iou)], acc.2)
      else if metric_type = "joints2Dsamples_l2es" then
        pure (final_metrics ++ [(metric_type, mvDiv (sums metric_type) (sums "num_vis_joints2Dsamples").toScalar)], acc.2)
      else if metric_type = "measurements_mae" then
        pure (final_metrics ++ cfg.METAIL_MEASUREMENTS.map
          (fun measure => (measure, mvDiv (sums measure) (s.total_samples : ℚ))), acc.2)
      else if metric_type = "smpl_measurements_mae" then
        pure (final_metrics ++ cfg.ALL_MEAS_NAMES_NO_SYMM.map
            (fun measure => (measure, mvDiv (sums measure) (s.total_samples : ℚ)))
          ++ [("smpl_meas_error_all", mvDiv (sums "smpl_meas_error_all") ((s.total_samples : ℚ) * 23))], acc.2)
      else
        let num_per_sample : Option ℚ :=
          if strContains metric_type "pve" then some 6890
          else if strContains metric_type "mpjpe" then some 14
          else if strContains metric_type "joints2D_" then some 17
          else if strContains metric_type "shape_mse" then some 10
          else if strContains metric_type "pose_mse" then some (24 * 3 * 3)
          else acc.2
        match num_per_sample with
        | none => throw (.unboundLocalError "local variable num_per_sample referenced before assignment")
        | some nps => pure (final_metrics ++ [(metric_type, mvDiv (sums metric_type) ((s.total_samples : ℚ) * nps))], some nps))
    (([] : List (String × MVal)), (none : Option ℚ))
  let final_metrics := acc.1
  let _ ← final_metrics.foldlM (fun _ kv =>
    match kv.2 with
    | MVal.S _ => pure ()
    | MVal.A l =>
      if l.length = 1 then pure ()
      else throw (.valueError "the truth value of an array with more than one element is ambiguous")) ()
  if cfg.save_per_frame_metrics then
    match s.per_frame_metrics with
    | none => throw (.attributeError "per_frame_metrics")
    | some pf =>
      let _ ← cfg.metrics_to_track.foldlM (fun _ metric_type =>
        if (!(strContains metric_type "samples") && !(strContains metric_type "measurements")) then
          if (pf metric_type).isEmpty then throw (.valueError "need at least one array to concatenate")
          else pure ()
        else pure ()) ()
      pure final_metrics
  else
    pure final_metrics

/-! Concrete instantiations used by the claim scenarios: the point type is
`ℚ` and the external collaborators get a simple concrete interpretation
(pointwise absolute difference as the norm, identity alignments, a sum as
the measurement extractor).  Nothing below depends on what these
collaborators compute, except where a scenario needs concrete numbers. -/

/-- Concrete collaborator instantiation over `Pt = ℚ` for closed scenarios. -/
def collabQ : Collab ℚ where
  dist := fun a b => absQ (a - b)
  sc_align := fun p _ => p
  pa_align := fun p _ => p
  get_meas := fun v j => [v.sum + j.sum]
  remove_symm := fun m => m

/-- Tracker configuration that tracks a single metric. -/
def cfgOne (m : String) : Config := ⟨[m], [], [], false⟩

/-- Freshly initialised tracker state for a single-metric configuration
(both `initialise_metric_sums` and `initialise_per_frame_metric_lists`). -/
def stOne (m : String) : TrackerState :=
  initialise_per_frame_metric_lists (cfgOne m) (initialise_metric_sums (cfgOne m) initState)

/-- Configuration of the `measurements_mae` scenarios: one configured
measurement name. -/
def cfgMeas : Config := ⟨["measurements_mae"], ["height"], [], false⟩

/-- Freshly initialised state for `cfgMeas`. -/
def st0Meas : TrackerState :=
  initialise_per_frame_metric_lists cfgMeas (initialise_metric_sums cfgMeas initState)

/-- Prediction bundle carrying only per-sample measurement values. -/
def predM (v : List ℚ) : PredDict ℚ := { emptyPred ℚ with measurements := fun _ => v }

/-- Target bundle carrying only per-sample measurement values. -/
def tgtM (v : List ℚ) : TargetDict ℚ := { emptyTarget ℚ with measurements := fun _ => v }

/-- Configuration of the stale-divisor scenario: a recognised point metric
followed by a metric of no recognised family. -/
def cfgStale : Config := ⟨["pves", "unknown_metric"], [], [], false⟩

/-- Configuration with only the unrecognised metric. -/
def cfgStaleOnly : Config := ⟨["unknown_metric"], [], [], false⟩

/-- All metric identifiers handled by `update_per_batch`, in source order. -/
def allMetrics : List String :=
  ["pves", "pves_sc", "pves_pa", "pve-ts", "pve-ts_sc", "pve-ts_pa",
   "mpjpes", "mpjpes_sc", "mpjpes_pa",
   "pves_samples_min", "pves_sc_samples_min", "pves_pa_samples_min",
   "pve-ts_samples_min", "pve-ts_sc_samples_min",
   "mpjpes_samples_min", "mpjpes_sc_samples_min", "mpjpes_pa_samples_min",
   "pose_mses", "shape_mses", "joints2D_l2es", "joints2Dsamples_l2es",
   "silhouette_ious", "silhouettesamples_ious",
   "measurements_mae", "smpl_measurements_mae"]

/-- Configuration tracking every metric. -/
def cfgAll : Config := ⟨allMetrics, ["height"], ["waist"], false⟩

/-- Freshly initialised state for `cfgAll`. -/
def stAll : TrackerState :=
  initialise_per_frame_metric_lists cfgAll (initialise_metric_sums cfgAll initState)

/-- Small well-formed single-sample prediction bundle feeding every branch. -/
def predAll : PredDict ℚ where
  verts := [[1, 2]]
  reposed_verts := [[1, 2]]
  reposed_joints := [[1]]
  joints3D := [[1]]
  joints2D := [[1]]
  verts_samples := [[1, 2]]
  reposed_verts_samples := [[1, 2]]
  joints3D_samples := [[1]]
  joints2Dsamples := [[[1]]]
  silhouettes := [[true]]
  silhouettessamples := [[[true]]]
  pose_params_rot_matrices := [[1]]
  shape_params := [[1]]
  measurements := fun _ => [1]

/-- Matching single-sample target bundle. -/
def tgtAll : TargetDict ℚ where
  verts := [[0, 0]]
  reposed_verts := [[0, 0]]
  reposed_joints := [[0]]
  joints3D := [[0]]
  joints2D := [[0]]
  silhouettes := [[true]]
  joints2D_vis := some [[true]]
  pose_params_rot_matrices := [[0]]
  shape_params := [[0]]
  measurements := fun _ => [0]

/-- Metrics whose `update_per_batch` branch appends to the per-frame
history: the nine direct/aligned point-error metrics, the eight
best-of-samples point-error metrics, `joints2D_l2es` and `silhouette_ious`
(and, notably, not `pose_mses` or `shape_mses`). -/
def perFrameAppenders : List String :=
  ["pves", "pves_sc", "pves_pa", "pve-ts", "pve-ts_sc", "pve-ts_pa",
   "mpjpes", "mpjpes_sc", "mpjpes_pa",
   "pves_samples_min", "pves_sc_samples_min", "pves_pa_samples_min",
   "pve-ts_samples_min", "pve-ts_sc_samples_min",
   "mpjpes_samples_min", "mpjpes_sc_samples_min", "mpjpes_pa_samples_min",
   "joints2D_l2es", "silhouette_ious"]

/-- Metric families that fall through to the generic divisor lookup of
`compute_final_metrics`, each paired with the per-sample element count the
spec assigns to its family. -/
def pointParamDivisors : List (String × ℚ) :=
  [("pves", 6890), ("pves_sc", 6890), ("pves_pa", 6890), ("pve-ts", 6890),
   ("pve-ts_sc", 6890), ("pve-ts_pa", 6890), ("pves_samples_min", 6890),
   ("pves_sc_samples_min", 6890), ("pves_pa_samples_min", 6890),
   ("pve-ts_samples_min", 6890), ("pve-ts_sc_samples_min", 6890),
   ("mpjpes", 14), ("mpjpes_sc", 14), ("mpjpes_pa", 14),
   ("mpjpes_samples_min", 14), ("mpjpes_sc_samples_min", 14),
   ("mpjpes_pa_samples_min", 14),
   ("joints2D_l2es", 17), ("shape_mses", 10), ("pose_mses", 24 * 3 * 3)]

/-- Configuration tracking exactly the point/parameter metrics. -/
def cfgPointParam : Config := ⟨pointParamDivisors.map Prod.fst, [], [], false⟩

/-- The eight best-of-samples (`_samples_min`) metric identifiers. -/
def sampleMinMetrics : List String :=
  ["pves_samples_min", "pves_sc_samples_min", "pves_pa_samples_min",
   "pve-ts_samples_min", "pve-ts_sc_samples_min",
   "mpjpes_samples_min", "mpjpes_sc_samples_min", "mpjpes_pa_samples_min"]

/-- Configuration of the silhouette-IoU scenarios. -/
def cfgSil : Config := ⟨["silhouette_ious"], [], [], false⟩

/-- Freshly initialised state for `cfgSil`. -/
def stSil : TrackerState :=
  initialise_per_frame_metric_lists cfgSil (initialise_metric_sums cfgSil initState)

/-- Prediction bundle carrying only a silhouette batch. -/
def predSil (p : List (List Bool)) : PredDict ℚ := { emptyPred ℚ with silhouettes := p }

/-- Target bundle carrying only a silhouette batch. -/
def tgtSil (t : List (List Bool)) : TargetDict ℚ := { emptyTarget ℚ with silhouettes := t }

/-- Streaming silhouette evaluation: one `update_per_batch` call per batch
of (prediction masks, target masks), then nothing else. -/
def silFold (batches : List (List (List Bool) × List (List Bool))) (s : TrackerState) :
    Except Err TrackerState :=
  batches.foldlM (fun s pt =>
    update_per_batch cfgSil collabQ s (predSil pt.1) (tgtSil pt.2) pt.1.length false false) s

/-- Full silhouette scenario: stream all batches from a freshly initialised
tracker and finalize. -/
def silRun (batches : List (List (List Bool) × List (List Bool))) :
    Except Err (List (String × MVal)) :=
  silFold batches stSil >>= compute_final_metrics cfgSil

/-- Specification-side confusion-matrix count: total number of pixel
positions of all batches whose (prediction, target) values satisfy `f`. -/
def silCount (f : Bool → Bool → Bool) (batches : List (List (List Bool) × List (List Bool))) : ℕ :=
  (batches.map (fun pt => (batchMaskCount f pt.1 pt.2).sum)).sum

/-- One `joints2Dsamples_l2es` batch: candidate 2D joint sets per sample,
target 2D joints per sample, visibility mask per sample. -/
structure J2DBatch where
  pred : List (List (List ℚ))
  tgtJ : List (List ℚ)
  vis : List (List Bool)

/-- Shape discipline of one `joints2Dsamples_l2es` batch: per-sample lists
agree in batch size and every candidate / target row / visibility row has
the same joint count `J`. -/
def j2dWellShaped (J : ℕ) (b : J2DBatch) : Prop :=
  b.tgtJ.length = b.pred.length ∧ b.vis.length = b.pred.length ∧
  (∀ tb ∈ b.tgtJ, tb.length = J) ∧ (∀ vb ∈ b.vis, vb.length = J) ∧
  (∀ pb ∈ b.pred, ∀ cand ∈ pb, cand.length = J)

/-- Specification-side count of contributing (candidate, joint) pairs of one
batch: for each sample, candidate count times the number of visible joints. -/
def j2dPairCount (b : J2DBatch) : ℕ :=
  (List.zipWith (fun pb vb => pb.length * countTrue vb) b.pred b.vis).sum

/-- Specification-side sum of visible-pair distances of one batch. -/
def j2dPairSum (b : J2DBatch) : ℚ :=
  ((j2dsVisPairs b.pred b.tgtJ b.vis).map (fun pq => collabQ.dist pq.1 pq.2)).sum

/-- Configuration of the `joints2Dsamples_l2es` scenarios. -/
def cfgJ2 : Config := ⟨["joints2Dsamples_l2es"], [], [], false⟩

/-- Freshly initialised state for `cfgJ2`. -/
def stJ2 : TrackerState :=
  initialise_per_frame_metric_lists cfgJ2 (initialise_metric_sums cfgJ2 initState)

/-- Prediction bundle carrying only candidate 2D joints. -/
def predJ2 (p : List (List (List ℚ))) : PredDict ℚ :=
  { emptyPred ℚ with joints2Dsamples := p }

/-- Target bundle carrying 2D joints and a visibility mask. -/
def tgtJ2 (t : List (List ℚ)) (v : List (List Bool)) : TargetDict ℚ :=
  { emptyTarget ℚ with joints2D := t, joints2D_vis := some v }

/-- Streaming `joints2Dsamples_l2es` evaluation over a list of batches. -/
def j2dFold (batches : List J2DBatch) (s : TrackerState) : Except Err TrackerState :=
  batches.foldlM (fun s b =>
    update_per_batch cfgJ2 collabQ s (predJ2 b.pred) (tgtJ2 b.tgtJ b.vis) b.pred.length false false) s

/-- Full `joints2Dsamples_l2es` scenario: stream all batches from a freshly
initialised tracker and finalize. -/
def j2dRun (batches : List J2DBatch) : Except Err (List (String × MVal)) :=
  j2dFold batches stJ2 >>= compute_final_metrics cfgJ2

/-- Configuration of the per-frame-initialisation scenario, with the
`save_per_frame_metrics` constructor flag left free. -/
def cfgPves (b : Bool) : Config := ⟨["pves"], [], [], b⟩

/-- State where `initialise_metric_sums` ran but
`initialise_per_frame_metric_lists` did not. -/
def stNoPerFrame (b : Bool) : TrackerState := initialise_metric_sums (cfgPves b) initState

/-- State where both initialisers ran. -/
def stWithPerFrame (b : Bool) : TrackerState :=
  initialise_per_frame_metric_lists (cfgPves b) (initialise_metric_sums (cfgPves b) initState)

/-- Decidable equality of `Except` results, for evaluating closed scenarios. -/
instance instDecEqExcept {E A : Type} [DecidableEq E] [DecidableEq A] :
    DecidableEq (Except E A) := fun x y =>
  match x, y with
  | .ok a, .ok b =>
    if h : a = b then .isTrue (congrArg Except.ok h)
    else .isFalse (fun hc => h (Except.ok.inj hc))
  | .error a, .error b =>
    if h : a = b then .isTrue (congrArg Except.error h)
    else .isFalse (fun hc => h (Except.error.inj hc))
  | .ok _, .error _ => .isFalse (fun hc => Except.noConfusion hc)
  | .error _, .ok _ => .isFalse (fun hc => Except.noConfusion hc)

/-! Helper lemmas shared by several claim proofs. -/

/-- Bind of an `ok` value in the `Except` monad reduces to the continuation. -/
theorem exceptBindOk {α β : Type} (a : α) (f : α → Except Err β) :
    (Except.ok a : Except Err α) >>= f = f a := rfl

/-- Bind of an `error` in the `Except` monad short-circuits. -/
theorem exceptBindErr {α β : Type} (er : Err) (f : α → Except Err β) :
    (Except.error er : Except Err α) >>= f = Except.error er := rfl

/-- Reading the key just written. -/
theorem setKey_same {α : Type} (f : String → α) (k : String) (v : α) :
    setKey f k v k = v := by
  simp [setKey]

/-- Reading a different key falls through to the underlying function. -/
theorem setKey_other {α : Type} (f : String → α) (k : String) (v : α) (k2 : String)
    (h : k2 ≠ k) : setKey f k v k2 = f k2 := by
  simp [setKey, h]

/-- Value picked by `argminIdx` is a minimum of the list. -/
theorem argminIdx_le (xs : List ℚ) : ∀ j, j < xs.length →
    xs.getD (argminIdx xs) 0 ≤ xs.getD j 0 := by
  induction xs with
  | nil => intro j hj; simp at hj
  | cons x rest ih =>
    cases rest with
    | nil =>
      intro j hj
      simp only [List.length_singleton, Nat.lt_one_iff] at hj
      subst hj
      exact le_refl _
    | cons y t =>
      intro j hj
      by_cases hx : x ≤ (y :: t).getD (argminIdx (y :: t)) 0
      · have hidx : argminIdx (x :: y :: t) = 0 := by
          rw [argminIdx]; exact if_pos hx
        rw [hidx]
        cases j with
        | zero => simp
        | succ j2 =>
          have hj2 : j2 < (y :: t).length := by simpa using hj
          calc (x :: y :: t).getD 0 0 = x := rfl
            _ ≤ (y :: t).getD (argminIdx (y :: t)) 0 := hx
            _ ≤ (y :: t).getD j2 0 := ih j2 hj2
            _ = (x :: y :: t).getD (j2 + 1) 0 := rfl
      · have hidx : argminIdx (x :: y :: t) = argminIdx (y :: t) + 1 := by
          rw [argminIdx]; exact if_neg hx
        rw [hidx]
        cases j with
        | zero =>
          calc (x :: y :: t).getD (argminIdx (y :: t) + 1) 0
              = (y :: t).getD (argminIdx (y :: t)) 0 := rfl
            _ ≤ x := le_of_lt (lt_of_not_le hx)
            _ = (x :: y :: t).getD 0 0 := rfl
        | succ j2 =>
          have hj2 : j2 < (y :: t).length := by simpa using hj
          calc (x :: y :: t).getD (argminIdx (y :: t) + 1) 0
              = (y :: t).getD (argminIdx (y :: t)) 0 := rfl
            _ ≤ (y :: t).getD j2 0 := ih j2 hj2
            _ = (x :: y :: t).getD (j2 + 1) 0 := rfl

/-- C1: the claimed running-sum linearity fails on the code for the
`measurements_mae` family, because its update branch accumulates the whole
per-sample absolute-error array (no `np.sum`): splitting the per-sample
errors 1 and 3 into two one-sample batches finalizes to the array `[2]`,
while the single two-sample batch leaves a two-element array in the slot and
`compute_final_metrics` then fails in its report loop on the boolean
context of the array.  Both runs start from the same freshly initialised state. -/
theorem measurements_mae_split_vs_joint_diverges :
    (do
      let s1 ← update_per_batch cfgMeas collabQ st0Meas (predM [5]) (tgtM [4]) 1 false false
      let s2 ← update_per_batch cfgMeas collabQ s1 (predM [7]) (tgtM [4]) 1 false false
      compute_final_metrics cfgMeas s2) = Except.ok [("height", MVal.A [2])] ∧
    (do
      let s ← update_per_batch cfgMeas collabQ st0Meas (predM [5, 7]) (tgtM [4, 4]) 2 false false
      compute_final_metrics cfgMeas s) =
      Except.error (Err.valueError "the truth value of an array with more than one element is ambiguous") := by
  constructor <;> with_unfolding_all rfl

/-- C9: after a single two-sample `update_per_batch`, the `measurements_mae`
slot holds the numpy array of per-sample absolute differences `[1, 3]`, not
the scalar sum 4 that the accumulator data model of the spec prescribes. -/
theorem measurements_mae_slot_is_array_not_scalar :
    (update_per_batch cfgMeas collabQ st0Meas (predM [5, 7]) (tgtM [4, 4]) 2 false false).map
      (fun s => s.metric_sums.map (fun f => f "height")) = Except.ok (some (MVal.A [1, 3])) ∧
    ∀ q : ℚ, MVal.A [1, 3] ≠ MVal.S q := by
  refine ⟨by with_unfolding_all rfl, fun q h => MVal.noConfusion h⟩

/-- C3: `compute_final_metrics` does not always fail loudly on a metric of
no recognised family.  The Python local `num_per_sample` survives loop
iterations, so with configuration `["pves", "unknown_metric"]` the
unrecognised metric is silently divided by the stale `pves` divisor 6890;
the loud `UnboundLocalError` only happens when no earlier iteration
assigned the local, as with configuration `["unknown_metric"]`. -/
theorem unknown_family_stale_divisor (p u : ℚ) (N : ℕ) :
    compute_final_metrics cfgStale
        ⟨some (fun k => if k = "pves" then MVal.S p else MVal.S u), N, none⟩ =
      Except.ok [("pves", MVal.S (p / ((N : ℚ) * 6890))),
        ("unknown_metric", MVal.S (u / ((N : ℚ) * 6890)))] ∧
    compute_final_metrics cfgStaleOnly
        ⟨some (fun k => if k = "pves" then MVal.S p else MVal.S u), N, none⟩ =
      Except.error (Err.unboundLocalError "local variable num_per_sample referenced before assignment") :=
  ⟨rfl, rfl⟩

/-- C10: with a simple point-error metric (`pves`) configured,
`update_per_batch` appends to the per-frame history unconditionally: for
every value of the `save_per_frame_metrics` constructor flag and of the two
return flags, the call fails with `AttributeError` when
`initialise_per_frame_metric_lists` has not run, and appends exactly one
per-frame entry when it has. -/
theorem pves_requires_per_frame_initialisation :
    (∀ b r1 r2 : Bool,
      update_per_batch (cfgPves b) collabQ (stNoPerFrame b) predAll tgtAll 1 r1 r2 =
        Except.error (Err.attributeError "per_frame_metrics")) ∧
    (∀ b r1 r2 : Bool,
      (update_per_batch (cfgPves b) collabQ (stWithPerFrame b) predAll tgtAll 1 r1 r2).map
        (fun s => s.per_frame_metrics.map (fun f => (f "pves").length)) =
        Except.ok (some 1)) := by
  refine ⟨fun b r1 r2 => ?_, fun b r1 r2 => ?_⟩ <;> cases b <;> cases r1 <;> cases r2 <;> rfl

/-- C4: every `_samples_min` update branch is guarded by
`assert num_input_samples == 1`: for a tracker configured with such a
metric, `update_per_batch` with any batch size other than 1 fails with the
assertion error regardless of state and data, and with batch size 1 the
branch runs without that failure. -/
theorem samples_min_batch_size_guard (m : String) (hm : m ∈ sampleMinMetrics) :
    (∀ (Pt : Type) (e : Collab Pt) (s : TrackerState) (pred : PredDict Pt)
      (tgt : TargetDict Pt) (n : ℕ) (b1 b2 : Bool), n ≠ 1 →
      update_per_batch (cfgOne m) e s pred tgt n b1 b2 =
        Except.error (Err.assertionError "Batch size must be 1 for min samples metrics!")) ∧
    (update_per_batch (cfgOne m) collabQ (stOne m) predAll tgtAll 1 false false).map
      (fun _ => ()) = Except.ok () := by
  fin_cases hm <;>
    refine ⟨fun Pt e s pred tgt n b1 b2 hn => ?_, by with_unfolding_all rfl⟩ <;>
    (rcases n with _ | n
     · with_unfolding_all rfl
     · rcases n with _ | n
       · exact absurd rfl hn
       · with_unfolding_all rfl)

/-- Witness for `samples_min_batch_size_guard` at `pves_samples_min` with
batch sizes 2 and 1. -/
theorem samples_min_batch_size_guard_witness :
    update_per_batch (cfgOne "pves_samples_min") collabQ (stOne "pves_samples_min")
        predAll tgtAll 2 false false =
      Except.error (Err.assertionError "Batch size must be 1 for min samples metrics!") ∧
    (update_per_batch (cfgOne "pves_samples_min") collabQ (stOne "pves_samples_min")
        predAll tgtAll 1 false false).map (fun _ => ()) = Except.ok () :=
  ⟨(samples_min_batch_size_guard "pves_samples_min" (by decide)).1 ℚ collabQ
      (stOne "pves_samples_min") predAll tgtAll 2 false false (by decide),
   (samples_min_batch_size_guard "pves_samples_min" (by decide)).2⟩

/-- C5: with `pves_samples_min` tracked (batch size 1, candidate list
`css`, target vertices `tv`), the update adds to the running sum exactly
the per-point distance sum of the candidate selected by `argminIdx` over
the per-candidate mean distances, and the mean distance of that candidate
is minimal among all candidates — not the first candidate and not an average
over candidates. -/
theorem samples_min_accumulates_argmin_candidate {Pt : Type} (e : Collab Pt)
    (css : List (List Pt)) (tv : List Pt) (g : String → MVal) (q0 : ℚ) (t : ℕ)
    (pf : String → List (List ℚ)) (hne : css ≠ []) :
    ((update_per_batch (cfgOne "pves_samples_min") e
        ⟨some (setKey g "pves_samples_min" (MVal.S q0)), t, some pf⟩
        { emptyPred Pt with verts_samples := css }
        { emptyTarget Pt with verts := [tv] } 1 false false).map
      (fun s => s.metric_sums.map (fun f => f "pves_samples_min")) =
      Except.ok (some (MVal.S (q0 +
        ((css.map (fun cand => sampleDists e.dist cand tv)).getD
          (argminIdx ((css.map (fun cand => sampleDists e.dist cand tv)).map listMean))
          []).sum)))) ∧
    ∀ j < css.length,
      ((css.map (fun cand => sampleDists e.dist cand tv)).map listMean).getD
        (argminIdx ((css.map (fun cand => sampleDists e.dist cand tv)).map listMean)) 0 ≤
      ((css.map (fun cand => sampleDists e.dist cand tv)).map listMean).getD j 0 := by
  constructor
  · rcases css with _ | ⟨c, cs⟩
    · exact absurd rfl hne
    · with_unfolding_all rfl
  · intro j hj
    have hlen : ((css.map (fun cand => sampleDists e.dist cand tv)).map listMean).length
        = css.length := by simp
    exact argminIdx_le _ j (by rw [hlen]; exact hj)

/-- Witness for `samples_min_accumulates_argmin_candidate`: three candidates
with per-candidate mean distances 5, 2 and 8; the accumulated value 4 is the
distance sum of the mean-2 candidate (the second), not of the first
candidate (sum 10) and not an average. -/
theorem samples_min_accumulates_argmin_candidate_witness :
    (([[5, 5], [2, 2], [8, 8]] : List (List ℚ)) ≠ []) ∧
    (update_per_batch (cfgOne "pves_samples_min") collabQ
        ⟨some (setKey (fun _ => MVal.S 0) "pves_samples_min" (MVal.S 0)), 0, some (fun _ => [])⟩
        { emptyPred ℚ with verts_samples := [[5, 5], [2, 2], [8, 8]] }
        { emptyTarget ℚ with verts := [[0, 0]] } 1 false false).map
      (fun s => s.metric_sums.map (fun f => f "pves_samples_min")) =
      Except.ok (some (MVal.S 4)) :=
  ⟨by decide,
   Eq.trans
     ((samples_min_accumulates_argmin_candidate collabQ [[5, 5], [2, 2], [8, 8]] [0, 0]
        (fun _ => MVal.S 0) 0 0 (fun _ => []) (by decide)).1)
     (by with_unfolding_all rfl)⟩

/-- C2: for every point/parameter metric that falls through to the generic
divisor lookup (the pve family including the `-ts` and `_samples_min`
variants, the mpjpe family, `joints2D_l2es`, `shape_mses` and `pose_mses`),
`compute_final_metrics` returns the accumulated sum divided by
`total_samples` times the fixed per-family element count: 6890, 14, 17, 10
and `24 * 3 * 3 = 216` respectively. -/
theorem point_param_final_normalisation (m : String) (c : ℚ) (q : String → ℚ) (N : ℕ)
    (hm : (m, c) ∈ pointParamDivisors) :
    compute_final_metrics (cfgOne m) ⟨some (fun k => MVal.S (q k)), N, none⟩ =
      Except.ok [(m, MVal.S (q m / ((N : ℚ) * c)))] := by
  fin_cases hm <;> rfl

/-- Witness for `point_param_final_normalisation` at `pves` with unit sums
and two samples. -/
theorem point_param_final_normalisation_witness :
    (("pves", (6890 : ℚ)) ∈ pointParamDivisors) ∧
    compute_final_metrics (cfgOne "pves") ⟨some (fun k => MVal.S ((fun _ => 1) k)), 2, none⟩ =
      Except.ok [("pves", MVal.S ((fun _ => (1 : ℚ)) "pves" / (((2 : ℕ) : ℚ) * 6890)))] :=
  ⟨by decide, point_param_final_normalisation "pves" 6890 (fun _ => 1) 2 (by decide)⟩

/-- Counterexample to C8 as stated: `pves_samples_min` is a sample variant
(`_samples_min` suffix), yet its update branch does append to the per-frame
history — after one update the history holds one entry, refuting that the
history is appended to only for simple non-sample metrics. -/
theorem per_frame_append_for_samples_min_refutes :
    (update_per_batch (cfgOne "pves_samples_min") collabQ (stOne "pves_samples_min")
        predAll tgtAll 1 false false).map
      (fun s => s.per_frame_metrics.map (fun f => (f "pves_samples_min").length)) =
      Except.ok (some 1) ∧ (1 : ℕ) ≠ 0 := by
  exact ⟨by with_unfolding_all rfl, by decide⟩

/-- C8 (amended): one `update_per_batch` call appends one per-frame entry
exactly for the metrics of `perFrameAppenders` — the direct/aligned
point-error metrics, the eight `_samples_min` variants, `joints2D_l2es` and
`silhouette_ious` — and appends nothing for `pose_mses`, `shape_mses`,
`joints2Dsamples_l2es`, `silhouettesamples_ious` and the two measurement
metrics.  Beyond the accumulator slots, `total_samples`, the per-frame
history and the two optional return dictionaries, the tracker holds no
other state. -/
theorem per_frame_append_exactly_for_point_error_metrics (m : String)
    (hm : m ∈ allMetrics) :
    (update_per_batch cfgAll collabQ stAll predAll tgtAll 1 false false).map
      (fun s => s.per_frame_metrics.map (fun f => (f m).length)) =
      Except.ok (some (if m ∈ perFrameAppenders then 1 else 0)) := by
  fin_cases hm <;> with_unfolding_all rfl

/-- Witness for `per_frame_append_exactly_for_point_error_metrics`
at `pves`. -/
theorem per_frame_append_exactly_for_point_error_metrics_witness :
    ("pves" ∈ allMetrics) ∧
    (update_per_batch cfgAll collabQ stAll predAll tgtAll 1 false false).map
      (fun s => s.per_frame_metrics.map (fun f => (f "pves").length)) =
      Except.ok (some (if "pves" ∈ perFrameAppenders then 1 else 0)) :=
  ⟨by decide, per_frame_append_exactly_for_point_error_metrics "pves" (by decide)⟩

/-- Unfolding of `pure` in the `Except` monad. -/
theorem exceptPure {A : Type} (a : A) : (pure a : Except Err A) = Except.ok a := rfl

/-- One silhouette batch folded into a well-formed state: the four
confusion-matrix counters each receive the batch total of their cell. -/
theorem sil_step (g : String → MVal) (t : ℕ) (pf : String → List (List ℚ))
    (p tm : List (List Bool)) (n : ℕ) :
    update_per_batch cfgSil collabQ ⟨some g, t, some pf⟩ (predSil p) (tgtSil tm) n false false =
      Except.ok ⟨some (setKey (setKey (setKey (setKey g
          "num_true_positives" (mvAddScalar (g "num_true_positives")
            (((batchMaskCount (fun a b => a && b) p tm).sum : ℕ) : ℚ)))
          "num_false_positives" (mvAddScalar (g "num_false_positives")
            (((batchMaskCount (fun a b => a && !b) p tm).sum : ℕ) : ℚ)))
          "num_true_negatives" (mvAddScalar (g "num_true_negatives")
            (((batchMaskCount (fun a b => !a && !b) p tm).sum : ℕ) : ℚ)))
          "num_false_negatives" (mvAddScalar (g "num_false_negatives")
            (((batchMaskCount (fun a b => !a && b) p tm).sum : ℕ) : ℚ))),
        t + n,
        some (setKey pf "silhouette_ious" (pf "silhouette_ious" ++
          [List.zipWith (fun tp fpn => (tp : ℚ) / ((tp : ℚ) + (fpn : ℚ)))
            (batchMaskCount (fun a b => a && b) p tm)
            (List.zipWith (· + ·) (batchMaskCount (fun a b => a && !b) p tm)
              (batchMaskCount (fun a b => !a && b) p tm))]))⟩ := rfl

/-- Finalisation of a silhouette-only tracker reads exactly the three
counters `TP`, `FN`, `FP` and divides — the true-negative counter is
accumulated but never read. -/
theorem sil_finalize (g2 : String → MVal) (t2 : ℕ) (pf2 : String → List (List ℚ)) :
    compute_final_metrics cfgSil ⟨some g2, t2, some pf2⟩ =
      Except.ok [("silhouette_ious", MVal.S ((g2 "num_true_positives").toScalar /
        ((g2 "num_true_positives").toScalar + (g2 "num_false_negatives").toScalar +
         (g2 "num_false_positives").toScalar)))] := rfl

/-- Unfolding of `silFold` on a batch cons. -/
theorem silFold_cons (bt : List (List Bool) × List (List Bool))
    (rest : List (List (List Bool) × List (List Bool))) (s : TrackerState) :
    silFold (bt :: rest) s =
      (update_per_batch cfgSil collabQ s (predSil bt.1) (tgtSil bt.2) bt.1.length false false) >>=
        silFold rest := rfl

/-- Unfolding of `silFold` on no batches. -/
theorem silFold_nil (s : TrackerState) : silFold [] s = Except.ok s := rfl

/-- Unfolding of `silCount` on a batch cons. -/
theorem silCount_cons (f : Bool → Bool → Bool) (bt : List (List Bool) × List (List Bool))
    (rest : List (List (List Bool) × List (List Bool))) :
    silCount f (bt :: rest) = (batchMaskCount f bt.1 bt.2).sum + silCount f rest := by
  simp [silCount]

/-- Folding any batch sequence from a state whose four counters hold
scalars accumulates exactly the specification-side confusion-matrix counts
of all batches. -/
theorem silFold_slots (batches : List (List (List Bool) × List (List Bool))) :
    ∀ (g : String → MVal) (t : ℕ) (pf : String → List (List ℚ)) (a b c d : ℚ),
    g "num_true_positives" = MVal.S a → g "num_false_positives" = MVal.S b →
    g "num_true_negatives" = MVal.S c → g "num_false_negatives" = MVal.S d →
    ∃ g2 t2 pf2, silFold batches ⟨some g, t, some pf⟩ = Except.ok ⟨some g2, t2, some pf2⟩ ∧
      g2 "num_true_positives" = MVal.S (a + (silCount (fun x y => x && y) batches : ℚ)) ∧
      g2 "num_false_positives" = MVal.S (b + (silCount (fun x y => x && !y) batches : ℚ)) ∧
      g2 "num_true_negatives" = MVal.S (c + (silCount (fun x y => !x && !y) batches : ℚ)) ∧
      g2 "num_false_negatives" = MVal.S (d + (silCount (fun x y => !x && y) batches : ℚ)) := by
  induction batches with
  | nil =>
    intro g t pf a b c d h1 h2 h3 h4
    exact ⟨g, t, pf, silFold_nil _, by simp [silCount, h1], by simp [silCount, h2],
      by simp [silCount, h3], by simp [silCount, h4]⟩
  | cons bt rest ih =>
    intro g t pf a b c d h1 h2 h3 h4
    rw [silFold_cons, sil_step, exceptBindOk]
    simp only [silCount_cons, Nat.cast_add, ← add_assoc]
    refine ih _ _ _ _ _ _ _ ?_ ?_ ?_ ?_ <;>
      simp [setKey, h1, h2, h3, h4, mvAddScalar]

/-- Confusion-matrix cell count of two constant masks. -/
theorem maskCount_replicate (f : Bool → Bool → Bool) (n : ℕ) (x y : Bool) :
    maskCount f (List.replicate n x) (List.replicate n y) = if f x y then n else 0 := by
  induction n with
  | zero => simp [maskCount, countTrue]
  | succ k ih =>
    cases hfxy : f x y <;>
      simp [List.replicate_succ, maskCount, countTrue, hfxy, List.count_cons] at ih ⊢ <;>
      omega

/-- Per-sample cell counts of a constant batch of constant masks. -/
theorem batchMaskCount_replicate (f : Bool → Bool → Bool) (bs : ℕ) (r1 r2 : List Bool) :
    batchMaskCount f (List.replicate bs r1) (List.replicate bs r2) =
      List.replicate bs (maskCount f r1 r2) := by
  induction bs with
  | zero => simp [batchMaskCount]
  | succ k ih =>
    simpa [List.replicate_succ, batchMaskCount] using ih

/-- Sum of a constant list of naturals. -/
theorem sum_replicate_nat (n v : ℕ) : (List.replicate n v).sum = n * v := by
  induction n with
  | zero => simp
  | succ k ih => simp [List.replicate_succ, ih, Nat.succ_mul]; omega

/-- C6: streaming any sequence of silhouette batches and finalising yields
exactly `TP / (TP + FP + FN)` over the accumulated global confusion-matrix
counts, with true negatives excluded; in particular identical all-foreground
masks finalize to 1 and disjoint masks (with some foreground present)
finalize to 0. -/
theorem silhouette_iou_confusion_formula :
    (∀ batches : List (List (List Bool) × List (List Bool)), silRun batches =
      Except.ok [("silhouette_ious",
        MVal.S ((silCount (fun x y => x && y) batches : ℚ) /
          ((silCount (fun x y => x && y) batches : ℚ) +
           (silCount (fun x y => x && !y) batches : ℚ) +
           (silCount (fun x y => !x && y) batches : ℚ))))]) ∧
    (∀ bs hw : ℕ, 0 < bs * hw →
      silRun [(List.replicate bs (List.replicate hw true),
               List.replicate bs (List.replicate hw true))] =
        Except.ok [("silhouette_ious", MVal.S 1)]) ∧
    (∀ batches, silCount (fun x y => x && y) batches = 0 →
      0 < silCount (fun x y => x && !y) batches + silCount (fun x y => !x && y) batches →
      silRun batches = Except.ok [("silhouette_ious", MVal.S 0)]) := by
  have main : ∀ batches : List (List (List Bool) × List (List Bool)), silRun batches =
      Except.ok [("silhouette_ious",
        MVal.S ((silCount (fun x y => x && y) batches : ℚ) /
          ((silCount (fun x y => x && y) batches : ℚ) +
           (silCount (fun x y => x && !y) batches : ℚ) +
           (silCount (fun x y => !x && y) batches : ℚ))))] := by
    intro batches
    obtain ⟨g2, t2, pf2, hf, k1, k2, _, k4⟩ :=
      silFold_slots batches
        (cfgSil.metrics_to_track.foldl (initSlots cfgSil) (fun _ => MVal.S 0)) 0
        (cfgSil.metrics_to_track.foldl (fun a m => setKey a m []) (fun _ => []))
        0 0 0 0 rfl rfl rfl rfl
    have hst : stSil =
        ⟨some (cfgSil.metrics_to_track.foldl (initSlots cfgSil) (fun _ => MVal.S 0)), 0,
         some (cfgSil.metrics_to_track.foldl (fun a m => setKey a m []) (fun _ => []))⟩ := rfl
    unfold silRun
    rw [hst, hf, exceptBindOk, sil_finalize, k1, k2, k4]
    simp only [MVal.toScalar, zero_add]
    rw [add_right_comm]
  refine ⟨main, fun bs hw hpos => ?_, fun batches h0 _ => ?_⟩
  · rw [main]
    have hrow : ∀ f : Bool → Bool → Bool,
        silCount f [(List.replicate bs (List.replicate hw true),
                     List.replicate bs (List.replicate hw true))] =
          if f true true then bs * hw else 0 := by
      intro f
      cases hft : f true true <;>
        simp [silCount, batchMaskCount_replicate, maskCount_replicate, sum_replicate_nat, hft]
    have hne : ((bs : ℚ) * (hw : ℚ)) ≠ 0 := by
      rw [← Nat.cast_mul]
      exact Nat.cast_ne_zero.mpr (Nat.pos_iff_ne_zero.mp hpos)
    simp [hrow, div_self hne]
  · rw [main, h0]
    simp

/-- Witness for `silhouette_iou_confusion_formula`: a 1×2 all-foreground
batch finalizes to 1, and a batch whose prediction and target foregrounds
are disjoint but nonempty finalizes to 0. -/
theorem silhouette_iou_confusion_formula_witness :
    (0 < 1 * 2 ∧
      silRun [(List.replicate 1 (List.replicate 2 true),
               List.replicate 1 (List.replicate 2 true))] =
        Except.ok [("silhouette_ious", MVal.S 1)]) ∧
    (silCount (fun x y => x && y) [([[true, false]], [[false, true]])] = 0 ∧
     0 < silCount (fun x y => x && !y) [([[true, false]], [[false, true]])] +
         silCount (fun x y => !x && y) [([[true, false]], [[false, true]])] ∧
     silRun [([[true, false]], [[false, true]])] = Except.ok [("silhouette_ious", MVal.S 0)]) :=
  ⟨⟨by decide, silhouette_iou_confusion_formula.2.1 1 2 (by decide)⟩,
   ⟨by decide, by decide, silhouette_iou_confusion_formula.2.2 _ (by decide) (by decide)⟩⟩

/-- Boolean-mask selection keeps exactly as many elements as the mask has
`true` entries, when the data is at least as long as the mask. -/
theorem selPairs_length {α : Type} (vb : List Bool) : ∀ (xs : List α),
    vb.length ≤ xs.length →
    ((xs.zip vb).filterMap (fun x => if x.2 then some x.1 else none)).length = countTrue vb := by
  induction vb with
  | nil => intro xs h; simp [countTrue]
  | cons v vs ih =>
    intro xs h
    cases xs with
    | nil => simp at h
    | cons x xs2 =>
      simp only [List.zip_cons_cons, List.filterMap_cons]
      cases v with
      | false => simp [countTrue, ih xs2 (by simpa using h)]
      | true => simp [countTrue, ih xs2 (by simpa using h), List.count_cons]

/-- Per-sample selection length: each of the `pb.length` candidates
contributes one pair per visible joint. -/
theorem j2d_row_len (tb : List ℚ) (vb : List Bool) (J : ℕ)
    (htb : tb.length = J) (hvb : vb.length = J) :
    ∀ pb : List (List ℚ), (∀ cand ∈ pb, cand.length = J) →
    ((pb.map (fun cand => ((cand.zip tb).zip vb).filterMap
      (fun x => if x.2 then some x.1 else none))).flatten).length = pb.length * countTrue vb := by
  intro pb
  induction pb with
  | nil => intro _; simp
  | cons cand pb2 ih =>
    intro hc
    have hcand : cand.length = J := hc cand (List.mem_cons_self _ _)
    have hrec := ih (fun c hm => hc c (List.mem_cons_of_mem _ hm))
    have hsel := selPairs_length vb (cand.zip tb) (by
      rw [List.length_zip, hcand, htb]
      omega)
    simp only [List.map_cons, List.flatten_cons, List.length_append, List.length_cons, hrec, hsel,
      Nat.succ_mul]
    omega

/-- Number of selected pairs of one well-shaped batch equals the tiled
visibility count the source assert compares against. -/
theorem j2d_pairs_len (J : ℕ) : ∀ (P : List (List (List ℚ))) (T : List (List ℚ))
    (V : List (List Bool)),
    T.length = P.length → V.length = P.length →
    (∀ tb ∈ T, tb.length = J) → (∀ vb ∈ V, vb.length = J) →
    (∀ pb ∈ P, ∀ cand ∈ pb, cand.length = J) →
    (j2dsVisPairs P T V).length = j2dsTiledVisCount P V := by
  intro P
  induction P with
  | nil =>
    intro T V hT hV _ _ _
    simp [j2dsVisPairs, j2dsTiledVisCount]
  | cons pb P2 ih =>
    intro T V hT hV htb hvb hpb
    cases T with
    | nil => simp at hT
    | cons tb T2 =>
      cases V with
      | nil => simp at hV
      | cons vb V2 =>
        have h1 := j2d_row_len tb vb J (htb tb (by simp)) (hvb vb (by simp)) pb
          (hpb pb (by simp))
        have h2 := ih T2 V2 (by simpa using hT) (by simpa using hV)
          (fun x hx => htb x (by simp [hx])) (fun x hx => hvb x (by simp [hx]))
          (fun x hx => hpb x (by simp [hx]))
        simp only [j2dsVisPairs, j2dsTiledVisCount, List.zip_cons_cons, List.zipWith_cons_cons,
          List.flatten_cons, List.length_append, List.sum_cons] at h2 ⊢
        omega

/-- One well-shaped `joints2Dsamples_l2es` batch folded into a well-formed
state: both slots receive their batch totals and the source assert passes. -/
theorem j2d_step (g : String → MVal) (t : ℕ) (pf : String → List (List ℚ))
    (P : List (List (List ℚ))) (T : List (List ℚ)) (V : List (List Bool)) (n : ℕ)
    (hlen : ((j2dsVisPairs P T V).map (fun pq => collabQ.dist pq.1 pq.2)).length =
      j2dsTiledVisCount P V) :
    update_per_batch cfgJ2 collabQ ⟨some g, t, some pf⟩ (predJ2 P) (tgtJ2 T V) n false false =
      Except.ok ⟨some (setKey (setKey g "joints2Dsamples_l2es"
          (mvAddScalar (g "joints2Dsamples_l2es")
            ((j2dsVisPairs P T V).map (fun pq => collabQ.dist pq.1 pq.2)).sum))
          "num_vis_joints2Dsamples"
          (mvAddScalar (g "num_vis_joints2Dsamples")
            ((((j2dsVisPairs P T V).map (fun pq => collabQ.dist pq.1 pq.2)).length : ℕ) : ℚ))),
        t + n, some pf⟩ := by
  simp only [update_per_batch]
  simp [hlen, bump, appendPF, exceptBindOk, exceptBindErr, exceptPure, cfgJ2, predJ2, tgtJ2]
  rw [setKey_other _ _ _ _ (by decide)]

/-- Unfolding of `j2dFold` on a batch cons. -/
theorem j2dFold_cons (bt : J2DBatch) (rest : List J2DBatch) (s : TrackerState) :
    j2dFold (bt :: rest) s =
      (update_per_batch cfgJ2 collabQ s (predJ2 bt.pred) (tgtJ2 bt.tgtJ bt.vis)
        bt.pred.length false false) >>= j2dFold rest := rfl

/-- Unfolding of `j2dFold` on no batches. -/
theorem j2dFold_nil (s : TrackerState) : j2dFold [] s = Except.ok s := rfl

/-- Folding any well-shaped batch sequence accumulates the total
visible-pair distance sum and the total visible-pair count. -/
theorem j2dFold_slots (J : ℕ) (batches : List J2DBatch) :
    ∀ (g : String → MVal) (t : ℕ) (pf : String → List (List ℚ)) (q c : ℚ),
    (∀ b ∈ batches, j2dWellShaped J b) →
    g "joints2Dsamples_l2es" = MVal.S q → g "num_vis_joints2Dsamples" = MVal.S c →
    ∃ g2 t2 pf2, j2dFold batches ⟨some g, t, some pf⟩ = Except.ok ⟨some g2, t2, some pf2⟩ ∧
      g2 "joints2Dsamples_l2es" = MVal.S (q + (batches.map j2dPairSum).sum) ∧
      g2 "num_vis_joints2Dsamples" = MVal.S (c + ((batches.map j2dPairCount).sum : ℚ)) := by
  induction batches with
  | nil =>
    intro g t pf q c _ h1 h2
    exact ⟨g, t, pf, j2dFold_nil _, by simp [h1], by simp [h2]⟩
  | cons bt rest ih =>
    intro g t pf q c hws h1 h2
    have hbt := hws bt (List.mem_cons_self _ _)
    obtain ⟨hT, hV, htb, hvb, hpb⟩ := hbt
    have hlen : ((j2dsVisPairs bt.pred bt.tgtJ bt.vis).map
        (fun pq => collabQ.dist pq.1 pq.2)).length = j2dsTiledVisCount bt.pred bt.vis := by
      rw [List.length_map]
      exact j2d_pairs_len J bt.pred bt.tgtJ bt.vis hT hV htb hvb hpb
    rw [j2dFold_cons, j2d_step _ _ _ _ _ _ _ hlen, exceptBindOk]
    simp only [List.map_cons, List.sum_cons, Nat.cast_add, ← add_assoc]
    refine ih _ _ _ _ _ (fun b hb => hws b (List.mem_cons_of_mem _ hb)) ?_ ?_
    · simp [setKey, h1, mvAddScalar]
      rfl
    · simp [setKey, h2, mvAddScalar]
      exact j2d_pairs_len J bt.pred bt.tgtJ bt.vis hT hV htb hvb hpb

/-- Finalisation of a `joints2Dsamples_l2es`-only tracker divides the
distance-sum slot by the visible-pair counter slot. -/
theorem j2d_finalize (g2 : String → MVal) (t2 : ℕ) (pf2 : String → List (List ℚ)) (q c : ℚ)
    (h1 : g2 "joints2Dsamples_l2es" = MVal.S q)
    (h2 : g2 "num_vis_joints2Dsamples" = MVal.S c) :
    compute_final_metrics cfgJ2 ⟨some g2, t2, some pf2⟩ =
      Except.ok [("joints2Dsamples_l2es", MVal.S (q / c))] := by
  simp only [compute_final_metrics]
  simp [List.foldlM_cons, List.foldlM_nil, h1, h2, MVal.toScalar, mvDiv, cfgJ2, exceptPure,
    exceptBindOk, exceptBindErr]

/-- C7: streaming any sequence of well-shaped `joints2Dsamples_l2es`
batches accumulates both the summed visible-pair distances and a counter
equal to the number of contributing (candidate, joint) pairs after
visibility filtering, and finalisation returns the distance sum divided by
that pair counter (not by `total_samples`). -/
theorem joints2Dsamples_pair_count_normalisation (J : ℕ) (batches : List J2DBatch)
    (hws : ∀ b ∈ batches, j2dWellShaped J b) :
    ∃ s2, j2dFold batches stJ2 = Except.ok s2 ∧
      s2.metric_sums.map (fun g => g "joints2Dsamples_l2es") =
        some (MVal.S ((batches.map j2dPairSum).sum)) ∧
      s2.metric_sums.map (fun g => g "num_vis_joints2Dsamples") =
        some (MVal.S (((batches.map j2dPairCount).sum : ℕ) : ℚ)) ∧
      j2dRun batches = Except.ok [("joints2Dsamples_l2es",
        MVal.S ((batches.map j2dPairSum).sum / (((batches.map j2dPairCount).sum : ℕ) : ℚ)))] := by
  obtain ⟨g2, t2, pf2, hf, k1, k2⟩ :=
    j2dFold_slots J batches
      (cfgJ2.metrics_to_track.foldl (initSlots cfgJ2) (fun _ => MVal.S 0)) 0
      (cfgJ2.metrics_to_track.foldl (fun a m => setKey a m []) (fun _ => []))
      0 0 hws rfl rfl
  have hst : stJ2 =
      ⟨some (cfgJ2.metrics_to_track.foldl (initSlots cfgJ2) (fun _ => MVal.S 0)), 0,
       some (cfgJ2.metrics_to_track.foldl (fun a m => setKey a m []) (fun _ => []))⟩ := rfl
  rw [zero_add] at k1
  rw [zero_add] at k2
  refine ⟨⟨some g2, t2, some pf2⟩, by rw [hst]; exact hf, by simp [k1], by simp [k2], ?_⟩
  unfold j2dRun
  rw [hst, hf, exceptBindOk, j2d_finalize g2 t2 pf2 _ _ k1 k2]

/-- Witness for `joints2Dsamples_pair_count_normalisation`: one batch, one
sample, two candidates with one of two joints visible; distance sum 4 over
2 contributing pairs finalizes to 2. -/
theorem joints2Dsamples_pair_count_normalisation_witness :
    (∀ b ∈ [J2DBatch.mk [[[1, 2], [3, 4]]] [[0, 0]] [[true, false]]], j2dWellShaped 2 b) ∧
    (∃ s2, j2dFold [J2DBatch.mk [[[1, 2], [3, 4]]] [[0, 0]] [[true, false]]] stJ2 = Except.ok s2 ∧
      s2.metric_sums.map (fun g => g "joints2Dsamples_l2es") =
        some (MVal.S (([J2DBatch.mk [[[1, 2], [3, 4]]] [[0, 0]] [[true, false]]].map j2dPairSum).sum)) ∧
      s2.metric_sums.map (fun g => g "num_vis_joints2Dsamples") =
        some (MVal.S (((([J2DBatch.mk [[[1, 2], [3, 4]]] [[0, 0]] [[true, false]]].map j2dPairCount).sum : ℕ)) : ℚ)) ∧
      j2dRun [J2DBatch.mk [[[1, 2], [3, 4]]] [[0, 0]] [[true, false]]] =
        Except.ok [("joints2Dsamples_l2es",
          MVal.S (([J2DBatch.mk [[[1, 2], [3, 4]]] [[0, 0]] [[true, false]]].map j2dPairSum).sum /
            ((([J2DBatch.mk [[[1, 2], [3, 4]]] [[0, 0]] [[true, false]]].map j2dPairCount).sum : ℕ) : ℚ)))]) :=
  ⟨by
     intro b hb
     rw [List.mem_singleton] at hb
     subst hb
     exact ⟨rfl, rfl, by decide, by decide, by decide⟩,
   joints2Dsamples_pair_count_normalisation 2
     [J2DBatch.mk [[[1, 2], [3, 4]]] [[0, 0]] [[true, false]]] (by
     intro b hb
     rw [List.mem_singleton] at hb
     subst hb
     exact ⟨rfl, rfl, by decide, by decide, by decide⟩)⟩
